import Mathlib

/-!
Verification of the `BackstageFargateServiceConstruct` from
`src/infrastructure/src/constructs/backstage-fargate-service-construct.ts`.

The construct is shallowly embedded: the CDK constructor is modelled as a
pure build function that records, in order, the resources it creates, the
service definition it hands to `ApplicationLoadBalancedFargateService`,
the KMS grants it issues, the ingress rules present on the database
cluster after the call, and the security groups and access-log buckets
attached to the load balancer.  A missing database credential secret
(the `props.dbCluster.secret!` non-null assertion) aborts the build with
an error at the point where the TypeScript code would throw.
-/

namespace BackstageAWS

/-- Subset of `BackstageInfraConfig` (helpers/infra-config) read by the construct. -/
structure BackstageInfraConfig where
  AppPrefix : String
  R53HostedZoneName : String
  CustomerName : String
  CustomerLogo : String
  CustomerLogoIcon : String
deriving DecidableEq

/-- One inbound allow rule on a security-group perimeter (`Connections` state). -/
structure IngressRule where
  source : String
  description : String
deriving DecidableEq

/-- The parts of `rds.DatabaseCluster` the construct reads: the endpoint,
the attached credential secret handle (possibly absent), and the current
inbound rule set of its connections perimeter. -/
structure DatabaseCluster where
  endpointHostname : String
  endpointPort : Nat
  secret : Option String
  ingressRules : List IngressRule
deriving DecidableEq

/-- The parts of `NetworkConstruct` the construct reads. -/
structure NetworkConstruct where
  vpc : String
  allowedIpsSg : String
deriving DecidableEq

/-- `ecs.Secret`: a Secrets Manager secret reference, optionally narrowed to a
single JSON field (`ecs.Secret.fromSecretsManager(secret, field?)`). -/
structure EcsSecret where
  secretName : String
  jsonField : Option String
deriving DecidableEq

/-- `type EnvVar = { [key: string]: string }`. -/
abbrev EnvVar := List (String × String)

/-- `type SecretVar = { [key: string]: ecs.Secret }`. -/
abbrev SecretVar := List (String × EcsSecret)

/-- A JavaScript optional object field: `none` means the key is absent from the
object, `some none` means the key is present and bound to `undefined`,
`some (some v)` means the key is present with value `v`.  The distinction
matters for object spread: `{...defaults, ...props}` lets a present key win
even when its value is `undefined`. -/
abbrev JsField (α : Type) := Option (Option α)

/-- `BackstageFargateServiceConstructProps`.  External handles (repository,
keys, secrets, roles, buckets, zones) are modelled by their identifying
names; `ecrKmsKey`, `envVars` and `secretVars` are the optional fields. -/
structure BackstageFargateServiceConstructProps where
  network : NetworkConstruct
  ecrRepository : String
  ecrKmsKey : Option String
  accessLogBucket : String
  dbCluster : DatabaseCluster
  config : BackstageInfraConfig
  oktaSecret : String
  gitlabAdminSecret : String
  taskRole : String
  hostedZoneName : String
  envVars : JsField EnvVar
  secretVars : JsField SecretVar
deriving DecidableEq

/-- `const defaultProps: Partial<...> = { envVars: {}, secretVars: {} }` —
the default value for the `envVars` field. -/
def defaultEnvVars : Option EnvVar := some []

/-- The `secretVars` entry of `defaultProps`. -/
def defaultSecretVars : Option SecretVar := some []

/-- Semantics of one field of `{ ...defaultProps, ...props }`: a key present in
`props` (even bound to `undefined`) overrides the default; an absent key
falls back to the default. -/
def jsSpread (dflt : Option α) (caller : JsField α) : Option α :=
  match caller with
  | none => dflt
  | some v => v

/-- The `envVars` field of the merged `props = { ...defaultProps, ...props }`. -/
def mergedEnvVars (p : BackstageFargateServiceConstructProps) : Option EnvVar :=
  jsSpread defaultEnvVars p.envVars

/-- The `secretVars` field of the merged `props = { ...defaultProps, ...props }`. -/
def mergedSecretVars (p : BackstageFargateServiceConstructProps) : Option SecretVar :=
  jsSpread defaultSecretVars p.secretVars

/-- `elb.ApplicationProtocol`. -/
inductive ApplicationProtocol
  | HTTP
  | HTTPS
deriving DecidableEq

/-- The `taskImageOptions` argument of `ApplicationLoadBalancedFargateService`. -/
structure TaskImageOptions where
  image : String
  environment : List (String × String)
  secrets : List (String × EcsSecret)
  containerPort : Nat
  taskRole : String
deriving DecidableEq

/-- The configuration handed to `ecsPatterns.ApplicationLoadBalancedFargateService`. -/
structure AlbFargateServiceDef where
  enableExecuteCommand : Bool
  redirectHTTP : Bool
  protocol : ApplicationProtocol
  taskImageOptions : TaskImageOptions
  openListener : Bool
  memoryLimitMiB : Nat
  cpu : Nat
  desiredCount : Nat
  domainName : String
deriving DecidableEq

/-- Resources the constructor creates, in program order. -/
inductive Resource
  | appSecret (name : String)
  | ecsCluster (name : String)
  | fargateService (name : String)
deriving DecidableEq

/-- Everything observable about one run of the constructor. -/
structure BuildResult where
  created : List Resource
  error : Option String
  service : Option AlbFargateServiceDef
  grants : List (String × String)
  dbIngressRules : List IngressRule
  albSecurityGroups : List String
  accessLogBuckets : List String
deriving DecidableEq

/-- The `environment` map of `taskImageOptions`, in source order. -/
def backstageEnvironment (p : BackstageFargateServiceConstructProps) :
    List (String × String) :=
  [("POSTGRES_HOST", p.dbCluster.endpointHostname),
   ("POSTGRES_PORT", toString p.dbCluster.endpointPort),
   ("BACKSTAGE_TITLE", "Backstage AWS Suite"),
   ("BACKSTAGE_ORGNAME", "BAWS"),
   ("PROTOCOL", "https"),
   ("BACKSTAGE_HOSTNAME", p.config.R53HostedZoneName),
   ("GITLAB_HOSTNAME", "git." ++ p.config.R53HostedZoneName),
   ("BACKSTAGE_PORT", "443"),
   ("NODE_ENV", "production"),
   ("CUSTOMER_NAME", p.config.CustomerName),
   ("CUSTOMER_LOGO", p.config.CustomerLogo),
   ("CUSTOMER_LOGO_ICON", p.config.CustomerLogoIcon)]

/-- The `secrets` map of `taskImageOptions`, in source order; `dbSecret` is the
credential secret attached to the database cluster and
`backstageSecretName` the secret generated by the constructor. -/
def backstageSecretsMap (p : BackstageFargateServiceConstructProps)
    (dbSecret backstageSecretName : String) : List (String × EcsSecret) :=
  [("POSTGRES_USER", ⟨dbSecret, some "username"⟩),
   ("POSTGRES_PASSWORD", ⟨dbSecret, some "password"⟩),
   ("OKTA_ORG_URL", ⟨p.oktaSecret, some "audience"⟩),
   ("OKTA_CLIENT_ID", ⟨p.oktaSecret, some "clientId"⟩),
   ("OKTA_CLIENT_SECRET", ⟨p.oktaSecret, some "clientSecret"⟩),
   ("OKTA_API_TOKEN", ⟨p.oktaSecret, some "apiToken"⟩),
   ("BACKSTAGE_SECRET", ⟨backstageSecretName, none⟩),
   ("GITLAB_ADMIN_TOKEN", ⟨p.gitlabAdminSecret, some "apiToken"⟩)]

/-- The `BackstageFargateServiceConstruct` constructor, step by step:
merge `props` with `defaultProps`; create the service-to-service auth
secret; create the ECS cluster; build `taskImageOptions` — this
dereferences `props.dbCluster.secret!`, so a cluster without an attached
credential secret throws here, after the first two resources exist;
otherwise create the `ApplicationLoadBalancedFargateService`, attach
access logging, grant decrypt on the ECR KMS key when one is supplied,
add the allow rule on the database perimeter and open the ALB to the
restricted-IP security group.  `id` is the construct id, standing in for
the network identity of the created service. -/
def buildBackstageFargateService (id : String)
    (props : BackstageFargateServiceConstructProps) : BuildResult :=
  let backstageSecretName := props.config.AppPrefix ++ "-backstage-appsecret"
  let createdSoFar :=
    [Resource.appSecret backstageSecretName,
     Resource.ecsCluster "backstage-solution-cluster"]
  match props.dbCluster.secret with
  | none =>
    { created := createdSoFar
      error := some "TypeError: props.dbCluster.secret is undefined"
      service := none
      grants := []
      dbIngressRules := props.dbCluster.ingressRules
      albSecurityGroups := []
      accessLogBuckets := [] }
  | some dbSecret =>
    let svc : AlbFargateServiceDef :=
      { enableExecuteCommand := true
        redirectHTTP := true
        protocol := ApplicationProtocol.HTTPS
        taskImageOptions :=
          { image := props.ecrRepository
            environment := backstageEnvironment props
            secrets := backstageSecretsMap props dbSecret backstageSecretName
            containerPort := 8080
            taskRole := props.taskRole }
        openListener := false
        memoryLimitMiB := 2048
        cpu := 512
        desiredCount := 2
        domainName := props.hostedZoneName }
    { created :=
        createdSoFar ++ [Resource.fargateService (props.config.AppPrefix ++ "-backstage")]
      error := none
      service := some svc
      grants :=
        match props.ecrKmsKey with
        | some key => [("decrypt", key)]
        | none => []
      dbIngressRules :=
        props.dbCluster.ingressRules ++ [⟨"service:" ++ id, "from fargate service"⟩]
      albSecurityGroups := [props.network.allowedIpsSg]
      accessLogBuckets := [props.accessLogBucket] }

/-- The environment map of the produced service (empty when no service was produced). -/
def serviceEnv (r : BuildResult) : List (String × String) :=
  match r.service with
  | none => []
  | some s => s.taskImageOptions.environment

/-- The secrets map of the produced service (empty when no service was produced). -/
def serviceSecrets (r : BuildResult) : List (String × EcsSecret) :=
  match r.service with
  | none => []
  | some s => s.taskImageOptions.secrets

/-- Replace the rule set on the database perimeter, for modelling a second
provisioning call against the updated cluster. -/
def withDbRules (p : BackstageFargateServiceConstructProps)
    (rules : List IngressRule) : BackstageFargateServiceConstructProps :=
  { p with dbCluster := { p.dbCluster with ingressRules := rules } }

/-- A concrete, fully valid input used by witnesses. -/
def sampleProps : BackstageFargateServiceConstructProps :=
  { network := { vpc := "vpc-1", allowedIpsSg := "sg-allowed-ips" }
    ecrRepository := "backstage-repo"
    ecrKmsKey := some "kms-key-1"
    accessLogBucket := "alb-logs"
    dbCluster :=
      { endpointHostname := "db.internal"
        endpointPort := 5432
        secret := some "db-credentials"
        ingressRules := [⟨"sg-ops", "ops access"⟩] }
    config :=
      { AppPrefix := "baws"
        R53HostedZoneName := "example.com"
        CustomerName := "Acme"
        CustomerLogo := "logo.png"
        CustomerLogoIcon := "icon.png" }
    oktaSecret := "okta-secret"
    gitlabAdminSecret := "gitlab-admin-secret"
    taskRole := "task-role"
    hostedZoneName := "example.com"
    envVars := none
    secretVars := none }

/-- A valid input where the caller supplies a plaintext env entry and a
secret-reference entry. -/
def c1Props : BackstageFargateServiceConstructProps :=
  { sampleProps with
    envVars := some (some [("MY_VAR", "x")])
    secretVars := some (some [("MY_SECRET", ⟨"caller-secret", none⟩)]) }

/-- An input whose database cluster has no credential secret attached. -/
def c2Props : BackstageFargateServiceConstructProps :=
  { sampleProps with
    dbCluster := { sampleProps.dbCluster with secret := none } }

/-- The C3 scenario: database endpoint `db.internal:5432`, empty caller
environment maps (present and bound to empty objects). -/
def c3Props : BackstageFargateServiceConstructProps :=
  { sampleProps with
    envVars := some (some [])
    secretVars := some (some []) }

/-- An input whose `envVars` and `secretVars` keys are present but bound to
`undefined`. -/
def c10Props : BackstageFargateServiceConstructProps :=
  { sampleProps with
    envVars := some none
    secretVars := some none }

/-- Every build leaves every rule already on the database perimeter in place. -/
theorem mem_dbIngressRules_of_mem (id : String)
    (p : BackstageFargateServiceConstructProps) (r : IngressRule)
    (h : r ∈ p.dbCluster.ingressRules) :
    r ∈ (buildBackstageFargateService id p).dbIngressRules := by
  unfold buildBackstageFargateService
  cases p.dbCluster.secret with
  | none => simpa using h
  | some s => simpa using Or.inl h

/-- C1: claimed — every key-value pair of the caller-supplied `envVars` and
every entry of `secretVars` appears in the injected environment/secret set of
the created container definition.  The code contradicts this (and its own
props documentation): the merged `envVars`/`secretVars` are never referenced
when `taskImageOptions` is built, so on a valid input whose caller maps are
non-empty the build succeeds yet neither the plaintext entry nor the secret
reference appears in the container definition. -/
theorem callerEnvVars_not_injected :
    (buildBackstageFargateService "svc" c1Props).error = none ∧
    mergedEnvVars c1Props = some [("MY_VAR", "x")] ∧
    ("MY_VAR", "x") ∉ serviceEnv (buildBackstageFargateService "svc" c1Props) ∧
    "MY_SECRET" ∉
      (serviceSecrets (buildBackstageFargateService "svc" c1Props)).map Prod.fst := by
  decide

/-- C2 (counterexample): on a database cluster with no credential secret
attached, the constructor does fail, but only after the application secret and
the ECS cluster have been created — the claim that no resource has been
created on such a misconfiguration is false. -/
theorem missing_db_secret_creates_resources_before_failure :
    (buildBackstageFargateService "svc" c2Props).error.isSome = true ∧
    (buildBackstageFargateService "svc" c2Props).created ≠ [] := by
  decide

/-- C2 (amended): when the supplied database cluster has no credential secret
handle, provisioning fails before the Fargate service is created, no grant is
issued and the database perimeter is untouched — but the application secret
and the ECS cluster have already been created at that point. -/
theorem missing_db_secret_fails_before_service_creation (id : String)
    (p : BackstageFargateServiceConstructProps) (h : p.dbCluster.secret = none) :
    (buildBackstageFargateService id p).error.isSome = true ∧
    (buildBackstageFargateService id p).service = none ∧
    (buildBackstageFargateService id p).created =
      [Resource.appSecret (p.config.AppPrefix ++ "-backstage-appsecret"),
       Resource.ecsCluster "backstage-solution-cluster"] ∧
    (buildBackstageFargateService id p).grants = [] ∧
    (buildBackstageFargateService id p).dbIngressRules = p.dbCluster.ingressRules := by
  simp [buildBackstageFargateService, h]

/-- C2 (witness): the amended statement applied at a concrete misconfigured
input. -/
theorem missing_db_secret_fails_before_service_creation_witness :
    (buildBackstageFargateService "w" c2Props).error.isSome = true ∧
    (buildBackstageFargateService "w" c2Props).service = none ∧
    (buildBackstageFargateService "w" c2Props).created =
      [Resource.appSecret (c2Props.config.AppPrefix ++ "-backstage-appsecret"),
       Resource.ecsCluster "backstage-solution-cluster"] ∧
    (buildBackstageFargateService "w" c2Props).grants = [] ∧
    (buildBackstageFargateService "w" c2Props).dbIngressRules =
      c2Props.dbCluster.ingressRules :=
  missing_db_secret_fails_before_service_creation "w" c2Props rfl

/-- C3 (counterexample): in the stated scenario the injected environment also
contains `BACKSTAGE_TITLE`, a key outside the claimed exact set, so the
claim that no other environment or secret keys are injected is false. -/
theorem injected_env_exceeds_claimed_keys :
    "BACKSTAGE_TITLE" ∈
      (serviceEnv (buildBackstageFargateService "svc" c3Props)).map Prod.fst ∧
    "BACKSTAGE_TITLE" ∉
      ["POSTGRES_HOST", "POSTGRES_PORT", "POSTGRES_USER", "POSTGRES_PASSWORD",
       "OKTA_ORG_URL", "OKTA_CLIENT_ID", "OKTA_CLIENT_SECRET", "OKTA_API_TOKEN",
       "GITLAB_ADMIN_TOKEN", "BACKSTAGE_SECRET"] := by
  decide

/-- C3 (amended): in the scenario (db endpoint `db.internal:5432`, empty caller
maps) the service definition has exactly the four fixed sizing values, the
secret keys are exactly the four `POSTGRES_*`/Okta/peer-admin/service-secret
keys, and the environment keys are exactly the two remaining `POSTGRES_*` keys
plus ten further fixed branding/hosting keys (`BACKSTAGE_TITLE`,
`BACKSTAGE_ORGNAME`, `PROTOCOL`, `BACKSTAGE_HOSTNAME`, `GITLAB_HOSTNAME`,
`BACKSTAGE_PORT`, `NODE_ENV`, `CUSTOMER_NAME`, `CUSTOMER_LOGO`,
`CUSTOMER_LOGO_ICON`). -/
theorem scenario_exact_sizing_and_keys :
    ((buildBackstageFargateService "svc" c3Props).service.map
      fun s => s.taskImageOptions.containerPort) = some 8080 ∧
    ((buildBackstageFargateService "svc" c3Props).service.map
      AlbFargateServiceDef.memoryLimitMiB) = some 2048 ∧
    ((buildBackstageFargateService "svc" c3Props).service.map
      AlbFargateServiceDef.cpu) = some 512 ∧
    ((buildBackstageFargateService "svc" c3Props).service.map
      AlbFargateServiceDef.desiredCount) = some 2 ∧
    (serviceEnv (buildBackstageFargateService "svc" c3Props)).map Prod.fst =
      ["POSTGRES_HOST", "POSTGRES_PORT", "BACKSTAGE_TITLE", "BACKSTAGE_ORGNAME",
       "PROTOCOL", "BACKSTAGE_HOSTNAME", "GITLAB_HOSTNAME", "BACKSTAGE_PORT",
       "NODE_ENV", "CUSTOMER_NAME", "CUSTOMER_LOGO", "CUSTOMER_LOGO_ICON"] ∧
    (serviceSecrets (buildBackstageFargateService "svc" c3Props)).map Prod.fst =
      ["POSTGRES_USER", "POSTGRES_PASSWORD", "OKTA_ORG_URL", "OKTA_CLIENT_ID",
       "OKTA_CLIENT_SECRET", "OKTA_API_TOKEN", "BACKSTAGE_SECRET",
       "GITLAB_ADMIN_TOKEN"] := by
  decide

/-- C4: on every input that passes the credential-secret dereference, a decrypt
grant is issued if and only if the ECR KMS key handle is present; when the key
is absent no grant call of any kind is made, and when it is present the single
grant issued is the decrypt grant on that key. -/
theorem ecr_grant_iff_key_present (id : String)
    (p : BackstageFargateServiceConstructProps) (h : p.dbCluster.secret.isSome) :
    ((buildBackstageFargateService id p).grants ≠ [] ↔ p.ecrKmsKey.isSome) ∧
    (p.ecrKmsKey = none → (buildBackstageFargateService id p).grants = []) ∧
    (∀ k, p.ecrKmsKey = some k →
      (buildBackstageFargateService id p).grants = [("decrypt", k)]) := by
  cases hsec : p.dbCluster.secret with
  | none => rw [hsec] at h; cases h
  | some s =>
    cases hk : p.ecrKmsKey <;>
      simp [buildBackstageFargateService, hsec, hk]

/-- C4 (witness): the grant equivalence applied at a concrete input carrying a
key, and at one without a key. -/
theorem ecr_grant_iff_key_present_witness :
    ((buildBackstageFargateService "w4" sampleProps).grants ≠ [] ↔
      sampleProps.ecrKmsKey.isSome) ∧
    (buildBackstageFargateService "w4"
      { sampleProps with ecrKmsKey := none }).grants = [] :=
  ⟨(ecr_grant_iff_key_present "w4" sampleProps (by decide)).1,
   (ecr_grant_iff_key_present "w4" { sampleProps with ecrKmsKey := none }
      (by decide)).2.1 rfl⟩

/-- C5: every service definition the constructor produces redirects HTTP to
HTTPS and uses HTTPS as the external protocol; no input yields a produced
listener accepting bare HTTP. -/
theorem listener_https_redirect (id : String)
    (p : BackstageFargateServiceConstructProps) (s : AlbFargateServiceDef)
    (h : (buildBackstageFargateService id p).service = some s) :
    s.redirectHTTP = true ∧ s.protocol = ApplicationProtocol.HTTPS := by
  unfold buildBackstageFargateService at h
  cases hsec : p.dbCluster.secret <;> rw [hsec] at h <;> simp at h
  rw [← h]
  exact ⟨rfl, rfl⟩

/-- C5 (witness): the redirect property applied to the service produced from a
concrete valid input. -/
theorem listener_https_redirect_witness :
    ((buildBackstageFargateService "w5" sampleProps).service.get
        (by decide)).redirectHTTP = true ∧
    ((buildBackstageFargateService "w5" sampleProps).service.get
        (by decide)).protocol = ApplicationProtocol.HTTPS :=
  listener_https_redirect "w5" sampleProps _ (Option.some_get _).symm

/-- C6: the database-perimeter update is additive — every rule present on the
perimeter before a provisioning call is still present after it, and still
present after a second provisioning call with a different service identity
run against the updated perimeter; the new call adds the allow rule for the
newly created service. -/
theorem db_perimeter_additive (id id2 : String)
    (p : BackstageFargateServiceConstructProps) (r : IngressRule)
    (h : r ∈ p.dbCluster.ingressRules) :
    r ∈ (buildBackstageFargateService id p).dbIngressRules ∧
    r ∈ (buildBackstageFargateService id2
          (withDbRules p (buildBackstageFargateService id p).dbIngressRules)).dbIngressRules ∧
    (p.dbCluster.secret.isSome →
      (⟨"service:" ++ id, "from fargate service"⟩ : IngressRule) ∈
        (buildBackstageFargateService id p).dbIngressRules) := by
  refine ⟨mem_dbIngressRules_of_mem id p r h, ?_, ?_⟩
  · exact mem_dbIngressRules_of_mem id2 _ r (mem_dbIngressRules_of_mem id p r h)
  · intro hs
    cases hsec : p.dbCluster.secret with
    | none => rw [hsec] at hs; cases hs
    | some s => simp [buildBackstageFargateService, hsec]

/-- C6 (witness): additivity applied at a concrete perimeter containing a
pre-existing unrelated rule. -/
theorem db_perimeter_additive_witness :
    (⟨"sg-ops", "ops access"⟩ : IngressRule) ∈
      (buildBackstageFargateService "w6" sampleProps).dbIngressRules ∧
    (⟨"sg-ops", "ops access"⟩ : IngressRule) ∈
      (buildBackstageFargateService "w6b"
        (withDbRules sampleProps
          (buildBackstageFargateService "w6" sampleProps).dbIngressRules)).dbIngressRules ∧
    (sampleProps.dbCluster.secret.isSome →
      (⟨"service:" ++ "w6", "from fargate service"⟩ : IngressRule) ∈
        (buildBackstageFargateService "w6" sampleProps).dbIngressRules) :=
  db_perimeter_additive "w6" "w6b" sampleProps ⟨"sg-ops", "ops access"⟩ (by decide)

/-- C7: every produced service definition has container port 8080, 2048 MiB
memory, 512 CPU units and 2 replicas, independent of caller configuration, and
its injected set contains `POSTGRES_HOST`, `POSTGRES_PORT`, `POSTGRES_USER`,
`POSTGRES_PASSWORD` and the generated service-auth secret under the fixed name
`BACKSTAGE_SECRET`. -/
theorem fixed_sizing_and_required_injection (id : String)
    (p : BackstageFargateServiceConstructProps) (s : AlbFargateServiceDef)
    (h : (buildBackstageFargateService id p).service = some s) :
    s.taskImageOptions.containerPort = 8080 ∧
    s.memoryLimitMiB = 2048 ∧ s.cpu = 512 ∧ s.desiredCount = 2 ∧
    "POSTGRES_HOST" ∈ s.taskImageOptions.environment.map Prod.fst ∧
    "POSTGRES_PORT" ∈ s.taskImageOptions.environment.map Prod.fst ∧
    "POSTGRES_USER" ∈ s.taskImageOptions.secrets.map Prod.fst ∧
    "POSTGRES_PASSWORD" ∈ s.taskImageOptions.secrets.map Prod.fst ∧
    ("BACKSTAGE_SECRET",
      (⟨p.config.AppPrefix ++ "-backstage-appsecret", none⟩ : EcsSecret)) ∈
      s.taskImageOptions.secrets := by
  unfold buildBackstageFargateService at h
  cases hsec : p.dbCluster.secret <;> rw [hsec] at h <;> simp at h
  rw [← h]
  simp [backstageEnvironment, backstageSecretsMap]

/-- C7 (witness): the fixed sizing and required injections on the service
produced from a concrete valid input. -/
theorem fixed_sizing_and_required_injection_witness :
    ((buildBackstageFargateService "w7" sampleProps).service.get
        (by decide)).taskImageOptions.containerPort = 8080 ∧
    ((buildBackstageFargateService "w7" sampleProps).service.get
        (by decide)).memoryLimitMiB = 2048 ∧
    ((buildBackstageFargateService "w7" sampleProps).service.get
        (by decide)).cpu = 512 ∧
    ((buildBackstageFargateService "w7" sampleProps).service.get
        (by decide)).desiredCount = 2 ∧
    "POSTGRES_HOST" ∈ ((buildBackstageFargateService "w7" sampleProps).service.get
        (by decide)).taskImageOptions.environment.map Prod.fst ∧
    "POSTGRES_PORT" ∈ ((buildBackstageFargateService "w7" sampleProps).service.get
        (by decide)).taskImageOptions.environment.map Prod.fst ∧
    "POSTGRES_USER" ∈ ((buildBackstageFargateService "w7" sampleProps).service.get
        (by decide)).taskImageOptions.secrets.map Prod.fst ∧
    "POSTGRES_PASSWORD" ∈ ((buildBackstageFargateService "w7" sampleProps).service.get
        (by decide)).taskImageOptions.secrets.map Prod.fst ∧
    ("BACKSTAGE_SECRET",
      (⟨sampleProps.config.AppPrefix ++ "-backstage-appsecret", none⟩ : EcsSecret)) ∈
      ((buildBackstageFargateService "w7" sampleProps).service.get
        (by decide)).taskImageOptions.secrets :=
  fixed_sizing_and_required_injection "w7" sampleProps _ (Option.some_get _).symm

/-- C8: the defaulting merge is caller-wins — when the caller omits `envVars`
or `secretVars` the merged configuration has the empty map, and when the
caller supplies a map the merged configuration keeps exactly the caller's
value. -/
theorem merge_caller_wins_with_defaults (p : BackstageFargateServiceConstructProps) :
    (p.envVars = none → mergedEnvVars p = some []) ∧
    (p.secretVars = none → mergedSecretVars p = some []) ∧
    (∀ m, p.envVars = some (some m) → mergedEnvVars p = some m) ∧
    (∀ m, p.secretVars = some (some m) → mergedSecretVars p = some m) := by
  refine ⟨fun h => ?_, fun h => ?_, fun m h => ?_, fun m h => ?_⟩ <;>
    simp [mergedEnvVars, mergedSecretVars, jsSpread, defaultEnvVars,
      defaultSecretVars, h]

/-- C8 (witness): defaulting at an input omitting both maps, and caller-wins at
an input supplying a non-empty map. -/
theorem merge_caller_wins_with_defaults_witness :
    mergedEnvVars sampleProps = some [] ∧
    mergedEnvVars c1Props = some [("MY_VAR", "x")] :=
  ⟨(merge_caller_wins_with_defaults sampleProps).1 rfl,
   (merge_caller_wins_with_defaults c1Props).2.2.1 _ rfl⟩

/-- C9: every produced service definition has remote command execution into the
running containers enabled; no configuration path disables it. -/
theorem execute_command_always_enabled (id : String)
    (p : BackstageFargateServiceConstructProps) (s : AlbFargateServiceDef)
    (h : (buildBackstageFargateService id p).service = some s) :
    s.enableExecuteCommand = true := by
  unfold buildBackstageFargateService at h
  cases hsec : p.dbCluster.secret <;> rw [hsec] at h <;> simp at h
  rw [← h]

/-- C9 (witness): execute-command enabled on the service produced from a
concrete valid input. -/
theorem execute_command_always_enabled_witness :
    ((buildBackstageFargateService "w9" sampleProps).service.get
        (by decide)).enableExecuteCommand = true :=
  execute_command_always_enabled "w9" sampleProps _ (Option.some_get _).symm

/-- C10: the defaulting merge is not robust to explicitly-undefined keys — on
an input whose `envVars` and `secretVars` keys are present but bound to
`undefined`, the merged configuration has `undefined` rather than the
empty-map default. -/
theorem merge_not_robust_to_explicit_undefined :
    c10Props.envVars = some none ∧
    mergedEnvVars c10Props = none ∧
    mergedSecretVars c10Props = none := by
  decide

end BackstageAWS
